import Mathlib

/-
Verification of the voice-translator backend pipeline (backend/server.js).

The pipeline orchestrator chains unreliable external providers
(speech-to-text, language detection, translation, speech synthesis) with
per-stage fallbacks.  External provider calls are modelled by an `Env`
record holding, for each kind of call, the response the outside world
would return (success payload, or failure).  Every embedded function
additionally returns the trace of provider calls it performed, and the
pipeline returns the list of socket events it emitted, so that ordering
and never-invoked properties can be stated.
-/

set_option maxRecDepth 8000

deriving instance DecidableEq for Except

namespace VoiceTranslator

/-- Binary audio payloads are byte lists (JS Buffer contents). -/
abbrev Audio := List Nat

/-- One external provider invocation, as observable at the HTTP / SDK
boundary of server.js. -/
inductive Call where
  | stt (model : String) (audioBuffer : Audio)
  | gDetect (text : String)
  | hfDetect (text : String)
  | gTranslate (text sourceLang targetLang : String)
  | hfTrans (model : String) (input : String)
  | hfTts (model : String) (text : String)
  | gtts (text lang : String)
deriving DecidableEq, Repr

/-- Socket.io events emitted by the server for one audio-stream job. -/
inductive Event where
  | transcriptionUpdate (originalText : String)
  | translatedAudio (audio : Audio) (text : String)
  | error (message : String)
deriving DecidableEq, Repr

/-- Outcomes of the external world: for each provider call the response it
would give.  `none` / `Except.error` stands for an axios rejection,
timeout, non-2xx status or a body without the expected field, exactly the
conditions under which the corresponding server.js call path fails. -/
structure Env where
  /-- whether `googleTranslateClient` was constructed (credentials set) -/
  googleClient : Bool
  /-- STT model response: `some text` iff the POST succeeds and
  `response.data.text` is a string -/
  sttResp : String → Audio → Option String
  /-- `googleTranslateClient.detect` outcome: detected language or the
  thrown error message -/
  gDetectResp : String → Except String String
  /-- Hugging Face language-detection outcome: top label, or the
  underlying error message (axios error or invalid response format) -/
  hfDetectResp : String → Except String String
  /-- `googleTranslateClient.translate` outcome -/
  gTranslateResp : String → String → String → Except String String
  /-- Hugging Face translation model outcome keyed by (model, input):
  translated text, or the thrown error message -/
  hfTransResp : String → String → Except String String
  /-- Hugging Face TTS model outcome keyed by (model, text): `some bytes`
  iff the POST succeeds, carrying the response body -/
  hfTtsResp : String → String → Option Audio
  /-- gtts `speech.save` outcome: bytes written to the temp file, or the
  callback error -/
  gttsSave : String → String → Except String Audio
  /-- whether a failed `speech.save` left a (partial) file at the temp
  path; library-dependent behaviour outside the repository -/
  gttsFileLeftOnError : String → String → Bool

/-- Result object of `processAudioPipeline`:
`{ audio: translatedAudio, text: translatedText, originalText }`. -/
structure PipelineResult where
  audio : Audio
  text : String
  originalText : String
deriving DecidableEq, Repr

/-- `mockSpeechToText` (server.js:67-70). -/
def mockSpeechToText (_audioBuffer : Audio) : String :=
  "This is a test translation from the mock service"

/-- `mockTranslation` (server.js:72-75). -/
def mockTranslation (text _sourceLang targetLang : String) : String :=
  "[Translated to " ++ targetLang ++ "] " ++ text

/-- The bytes of the ASCII string mock-audio-data, the placeholder buffer
returned by `mockTextToSpeech`. -/
def mockAudioData : Audio :=
  [109, 111, 99, 107, 45, 97, 117, 100, 105, 111, 45, 100, 97, 116, 97]

/-- `mockTextToSpeech` (server.js:76-79). -/
def mockTextToSpeech (_text _language : String) : Audio :=
  mockAudioData

/-- Boolean success test for `Except`. -/
def exceptOk {ε α : Type} : Except ε α → Bool
  | .ok _ => true
  | .error _ => false

/-- The ordered STT model list of `speechToTextWithHuggingFace`
(server.js:187-190). -/
def sttModels : List String :=
  ["openai/whisper-base", "openai/whisper-large-v3"]

/-- The `for (const model of models)` loop of
`speechToTextWithHuggingFace` (server.js:192-222): first model whose
response carries a text field wins; a failed or shapeless response falls
through to the next model; exhaustion throws. -/
def sttTryModels (env : Env) (audioBuffer : Audio) :
    List String → Except String String × List Call
  | [] => (.error "All STT models failed.", [])
  | model :: rest =>
    match env.sttResp model audioBuffer with
    | some text => (.ok text, [.stt model audioBuffer])
    | none =>
      let r := sttTryModels env audioBuffer rest
      (r.1, .stt model audioBuffer :: r.2)

/-- `speechToTextWithHuggingFace` (server.js:185-223). -/
def speechToTextWithHuggingFace (env : Env) (audioBuffer : Audio) :
    Except String String × List Call :=
  sttTryModels env audioBuffer sttModels

/-- `detectLanguageWithHuggingFace` (server.js:225-255): one model call;
every failure is rethrown with the fixed message prefix. -/
def detectLanguageWithHuggingFace (env : Env) (text : String) :
    Except String String × List Call :=
  match env.hfDetectResp text with
  | .ok label => (.ok label, [.hfDetect text])
  | .error e =>
      (.error ("Hugging Face language detection failed: " ++ e), [.hfDetect text])

/-- `doTranslation` (server.js:298-334): one Hugging Face model call;
the caught error is rethrown unchanged. -/
def doTranslation (env : Env) (inputText model : String) :
    Except String String × List Call :=
  (env.hfTransResp model inputText, [.hfTrans model inputText])

/-- The interpolated model name `Helsinki-NLP/opus-mt-` a `-` b used by
`translateWithHuggingFace` (server.js:276,287,289). -/
def opusModel (a b : String) : String :=
  "Helsinki-NLP/opus-mt-" ++ a ++ "-" ++ b

/-- `translateWithHuggingFace` (server.js:257-295).
Strategy 0: for a Japanese source or target with the Google client
configured, try Google Translate and return on success (failure falls
through).  Strategy 1: direct Helsinki-NLP pair model; a truthy result
returns, a thrown error or falsy (empty) result falls through.
Strategy 2 (only when neither language is English): pivot through
English; a thrown leg error propagates uncaught, a falsy leg result
reaches the final exhaustion throw. -/
def translateWithHuggingFace (env : Env) (text sourceLang targetLang : String) :
    Except String String × List Call :=
  let c0 : List Call :=
    if (targetLang = "ja" ∨ sourceLang = "ja") ∧ env.googleClient = true then
      [.gTranslate text sourceLang targetLang]
    else []
  let g : Option String :=
    if (targetLang = "ja" ∨ sourceLang = "ja") ∧ env.googleClient = true then
      match env.gTranslateResp text sourceLang targetLang with
      | .ok translation => some translation
      | .error _ => none
    else none
  match g with
  | some translation => (.ok translation, c0)
  | none =>
    let modelName := opusModel sourceLang targetLang
    let d1 := doTranslation env text modelName
    let direct : Option String :=
      match d1.1 with
      | .ok t => if t = "" then none else some t
      | .error _ => none
    match direct with
    | some t => (.ok t, c0 ++ d1.2)
    | none =>
      if sourceLang ≠ "en" ∧ targetLang ≠ "en" then
        let dA := doTranslation env text (opusModel sourceLang "en")
        match dA.1 with
        | .error e => (.error e, c0 ++ d1.2 ++ dA.2)
        | .ok textInEnglish =>
          if textInEnglish = "" then
            (.error "All translation strategies failed.", c0 ++ d1.2 ++ dA.2)
          else
            let dB := doTranslation env textInEnglish (opusModel "en" targetLang)
            match dB.1 with
            | .error e => (.error e, c0 ++ d1.2 ++ dA.2 ++ dB.2)
            | .ok translated =>
              if translated = "" then
                (.error "All translation strategies failed.", c0 ++ d1.2 ++ dA.2 ++ dB.2)
              else (.ok translated, c0 ++ d1.2 ++ dA.2 ++ dB.2)
      else (.error "All translation strategies failed.", c0 ++ d1.2)

/-- The `modelMap` object of `textToSpeechWithHuggingFace`
(server.js:337-347), as a lookup function. -/
def ttsModelMap (targetLang : String) : Option String :=
  if targetLang = "es" then some "facebook/mms-tts-spa"
  else if targetLang = "fr" then some "facebook/mms-tts-fra"
  else if targetLang = "de" then some "facebook/mms-tts-deu"
  else if targetLang = "ja" then some "facebook/mms-tts-jpn"
  else if targetLang = "hi" then some "facebook/mms-tts-hin"
  else if targetLang = "it" then some "facebook/mms-tts-ita"
  else if targetLang = "ru" then some "facebook/mms-tts-rus"
  else if targetLang = "zh" then some "facebook/mms-tts-cmn"
  else if targetLang = "ur" then some "facebook/mms-tts-urd"
  else none

/-- The model chosen for the first synthesis attempt:
`modelMap[targetLang] || modelMap['es']` (server.js:349); the default
branch is the literal value of `modelMap['es']`. -/
def ttsPrimaryModel (targetLang : String) : String :=
  match ttsModelMap targetLang with
  | some m => m
  | none => "facebook/mms-tts-spa"

/-- The `fallbackModels` list of `textToSpeechWithHuggingFace`
(server.js:379-383). -/
def ttsFallbackModels : List String :=
  ["suno/bark", "espnet/kan-bayashi_ljspeech_vits", "microsoft/speecht5_tts"]

/-- The fallback loop of `textToSpeechWithHuggingFace`
(server.js:385-411): a model is kept only when its response body exceeds
100 bytes; an error or short body continues the loop; exhaustion throws. -/
def ttsTryFallbacks (env : Env) (text : String) :
    List String → Except String Audio × List Call
  | [] => (.error "All TTS models failed", [])
  | model :: rest =>
    match env.hfTtsResp model text with
    | some data =>
      if 100 < data.length then (.ok data, [.hfTts model text])
      else
        let r := ttsTryFallbacks env text rest
        (r.1, .hfTts model text :: r.2)
    | none =>
      let r := ttsTryFallbacks env text rest
      (r.1, .hfTts model text :: r.2)

/-- `textToSpeechWithHuggingFace` (server.js:336-415): the
language-specific model first (its response must be at least 100 bytes,
a shorter body being treated as a disguised failure), then the generic
fallback chain. -/
def textToSpeechWithHuggingFace (env : Env) (text targetLang : String) :
    Except String Audio × List Call :=
  let model := ttsPrimaryModel targetLang
  match env.hfTtsResp model text with
  | some data =>
    if data.length < 100 then
      let r := ttsTryFallbacks env text ttsFallbackModels
      (r.1, .hfTts model text :: r.2)
    else (.ok data, [.hfTts model text])
  | none =>
    let r := ttsTryFallbacks env text ttsFallbackModels
    (r.1, .hfTts model text :: r.2)

/-- Outcome of one `textToSpeechWithGoogle` run, including whether the
temporary mp3 file is still present afterwards. -/
structure GttsOutcome where
  result : Except String Audio
  calls : List Call
  tmpFileLeft : Bool
deriving DecidableEq, Repr

/-- `textToSpeechWithGoogle` (server.js:417-439): `speech.save` writes
the temp file; on callback success the file is read with `readFileSync`
and then removed with `unlinkSync`; on callback error the promise is
rejected WITHOUT any unlink, so whatever file the failed save produced
stays behind (an env-given fact about the gtts library). -/
def textToSpeechWithGoogle (env : Env) (text targetLang : String) : GttsOutcome :=
  match env.gttsSave text targetLang with
  | .error err =>
    { result := .error err
      calls := [.gtts text targetLang]
      tmpFileLeft := env.gttsFileLeftOnError text targetLang }
  | .ok bytes =>
    { result := .ok bytes
      calls := [.gtts text targetLang]
      tmpFileLeft := false }

/-- The STT block of `processAudioPipeline` (server.js:105-118): on
success emit `transcription-update` (when a socket is attached); on
exhaustion substitute the mock transcript. -/
def sttStage (env : Env) (audioBuffer : Audio) (socket : Bool) :
    String × List Call × List Event :=
  let r := speechToTextWithHuggingFace env audioBuffer
  match r.1 with
  | .ok t => (t, r.2, if socket then [.transcriptionUpdate t] else [])
  | .error _ => (mockSpeechToText audioBuffer, r.2, [])

/-- The language-detection block of `processAudioPipeline`
(server.js:120-136): only for the sentinel source auto; the Google
detector when the client is configured, else the Hugging Face detector;
a detection failure is rethrown with the fixed wrapper message and is
the one non-structural hard failure of the pipeline. -/
def detectStage (env : Env) (sourceLang originalText : String) :
    Except String String × List Call :=
  if sourceLang = "auto" then
    if env.googleClient then
      match env.gDetectResp originalText with
      | .ok lang => (.ok lang, [.gDetect originalText])
      | .error m =>
        (.error ("Language detection failed: " ++ m ++
                 ". Please select a source language manually."),
         [.gDetect originalText])
    else
      let r := detectLanguageWithHuggingFace env originalText
      match r.1 with
      | .ok lang => (.ok lang, r.2)
      | .error m =>
        (.error ("Language detection failed: " ++ m ++
                 ". Please select a source language manually."), r.2)
  else (.ok sourceLang, [])

/-- The translation block of `processAudioPipeline` (server.js:138-152):
skipped entirely when the detected source equals the target; otherwise
the router is invoked and any router failure degrades to the mock
translation. -/
def translateStage (env : Env) (originalText detectedSourceLang targetLang : String) :
    String × List Call :=
  if detectedSourceLang = targetLang then (originalText, [])
  else
    let r := translateWithHuggingFace env originalText detectedSourceLang targetLang
    match r.1 with
    | .ok t => (t, r.2)
    | .error _ => (mockTranslation originalText detectedSourceLang targetLang, r.2)

/-- The synthesis block of `processAudioPipeline` (server.js:156-173):
Google gTTS first, then the Hugging Face chain, then the mock payload. -/
def ttsStage (env : Env) (translatedText targetLang : String) :
    Audio × List Call :=
  let g := textToSpeechWithGoogle env translatedText targetLang
  match g.result with
  | .ok a => (a, g.calls)
  | .error _ =>
    let h := textToSpeechWithHuggingFace env translatedText targetLang
    match h.1 with
    | .ok a => (a, g.calls ++ h.2)
    | .error _ => (mockTextToSpeech translatedText targetLang, g.calls ++ h.2)

/-- `processAudioPipeline` (server.js:81-182).  Returns the result (or
the thrown error), the provider-call trace, and the progress events
emitted before returning. -/
def processAudioPipeline (env : Env) (audioData : Audio)
    (sourceLang targetLang : String) (socket : Bool) :
    Except String PipelineResult × List Call × List Event :=
  if audioData.length < 1000 then
    (.error "Audio buffer too small - may be empty", [], [])
  else
    let s := sttStage env audioData socket
    let d := detectStage env sourceLang s.1
    match d.1 with
    | .error m => (.error m, s.2.1 ++ d.2, s.2.2)
    | .ok detectedSourceLang =>
      let tr := translateStage env s.1 detectedSourceLang targetLang
      let ts := ttsStage env tr.1 targetLang
      (.ok { audio := ts.1, text := tr.1, originalText := s.1 },
       s.2.1 ++ d.2 ++ tr.2 ++ ts.2,
       s.2.2)

/-- The `audio-stream` socket handler (server.js:445-460): missing audio
emits the fixed error event and stops; otherwise the pipeline runs with
the socket attached (so progress events are emitted in order), and its
result becomes a `translated-audio` event, its thrown error a wrapped
`error` event. -/
def handleAudioStream (env : Env) (audio : Option Audio)
    (sourceLang targetLang : Option String) : List Event × List Call :=
  match audio with
  | none => ([.error "No audio data received."], [])
  | some audioData =>
    let r := processAudioPipeline env audioData
               (sourceLang.getD "auto") (targetLang.getD "es") true
    match r.1 with
    | .ok res => (r.2.2 ++ [.translatedAudio res.audio res.text], r.2.1)
    | .error m => (r.2.2 ++ [.error ("Pipeline failed: " ++ m)], r.2.1)

/-- The transcript the pipeline ends up with for a given environment and
audio buffer: the STT result, or the mock transcript on exhaustion.
Independent of the socket flag, which only affects event emission. -/
def pipelineOriginalText (env : Env) (audioBuffer : Audio) : String :=
  match (speechToTextWithHuggingFace env audioBuffer).1 with
  | .ok t => t
  | .error _ => mockSpeechToText audioBuffer

/-- Whether auto-detection on the given transcript succeeds in the given
environment (Google client when configured, Hugging Face otherwise). -/
def detectionSucceeds (env : Env) (text : String) : Bool :=
  if env.googleClient then exceptOk (env.gDetectResp text)
  else exceptOk (env.hfDetectResp text)

/-- The detected (or declared) source language of a run: the declared
language when it is not the sentinel auto, otherwise the detector output
when detection succeeds. -/
def pipelineDetectedLang (env : Env) (sourceLang originalText : String) : Option String :=
  match (detectStage env sourceLang originalText).1 with
  | .ok l => some l
  | .error _ => none

/-- Every provider call that can substitute real work fails: every STT
model, Google Translate, every Hugging Face translation model, every
Hugging Face TTS model, and gtts. -/
def allProvidersFail (env : Env) : Prop :=
  (∀ m a, env.sttResp m a = none) ∧
  (∀ x y z, ∃ e, env.gTranslateResp x y z = Except.error e) ∧
  (∀ m i, ∃ e, env.hfTransResp m i = Except.error e) ∧
  (∀ m t, env.hfTtsResp m t = none) ∧
  (∀ t l, ∃ e, env.gttsSave t l = Except.error e)

/-- Whether a call goes to a translation provider (Google Translate or a
Hugging Face translation model). -/
def isTranslationCall : Call → Bool
  | .gTranslate _ _ _ => true
  | .hfTrans _ _ => true
  | _ => false

/-- An environment in which every provider call fails. -/
def envFail : Env where
  googleClient := false
  sttResp := fun _ _ => none
  gDetectResp := fun _ => .error "detector unavailable"
  hfDetectResp := fun _ => .error "detector unavailable"
  gTranslateResp := fun _ _ _ => .error "google translate unavailable"
  hfTransResp := fun _ _ => .error "model unavailable"
  hfTtsResp := fun _ _ => none
  gttsSave := fun _ _ => .error "gtts unavailable"
  gttsFileLeftOnError := fun _ _ => false

/-- A response body comfortably above the 100-byte floor. -/
def goodAudio : Audio := List.replicate 200 1

/-- An environment in which every provider call succeeds. -/
def envOk : Env where
  googleClient := false
  sttResp := fun _ _ => some "hello there"
  gDetectResp := fun _ => .ok "en"
  hfDetectResp := fun _ => .ok "en"
  gTranslateResp := fun _ _ _ => .ok "translated by google"
  hfTransResp := fun _ i => .ok ("T:" ++ i)
  hfTtsResp := fun _ _ => some goodAudio
  gttsSave := fun _ _ => .ok goodAudio
  gttsFileLeftOnError := fun _ _ => false

/-- A 1000-byte audio payload, exactly at the size floor. -/
def aud1000 : Audio := List.replicate 1000 0

/-- A 500-byte payload of silence, below the 1000-byte floor. -/
def aud500 : Audio := List.replicate 500 0

/-- An all-failing environment in which a failed gtts save leaves its
(partial) temp file on disk. -/
def envC9 : Env :=
  { envFail with gttsFileLeftOnError := fun _ _ => true }

/-- STT and TTS environment for the fallback-ordering scenario: provider
A fails, provider B succeeds, provider C would also succeed but must
never be reached. -/
def envC4 : Env :=
  { envFail with
    hfTtsResp := fun m _ => if m = "providerA" then none else some (List.replicate 101 3)
    sttResp := fun m _ => if m = "providerA" then none else some "transcript from B" }

/-- Translation environment for the pivot scenario: the direct fr-ko
model fails, the fr-en leg throws a timeout. -/
def envC5bad : Env :=
  { envFail with
    hfTransResp := fun m _ =>
      if m = opusModel "fr" "en" then .error "leg timeout"
      else .error "direct model failed" }

/-- Translation environment in which the direct fr-ko model fails and
both pivot legs succeed. -/
def envC5ok : Env :=
  { envFail with
    hfTransResp := fun m i =>
      if m = opusModel "fr" "en" ∧ i = "bonjour" then .ok "good morning"
      else if m = opusModel "en" "ko" ∧ i = "good morning" then .ok "annyeong"
      else .error "direct model failed" }

/-- Exhausting every STT model yields the fixed exhaustion error. -/
theorem sttTryModels_exhausted (env : Env) (a : Audio) (ms : List String)
    (h : ∀ m, env.sttResp m a = none) :
    (sttTryModels env a ms).1 = Except.error "All STT models failed." := by
  induction ms with
  | nil => rfl
  | cons m rest ih => simp [sttTryModels, h, ih]

/-- Exhausting every fallback TTS model yields the fixed exhaustion
error. -/
theorem ttsTryFallbacks_exhausted (env : Env) (text : String) (ms : List String)
    (h : ∀ m, env.hfTtsResp m text = none) :
    (ttsTryFallbacks env text ms).1 = Except.error "All TTS models failed" := by
  induction ms with
  | nil => rfl
  | cons m rest ih => simp [ttsTryFallbacks, h, ih]

/-- When every Hugging Face TTS model fails, the whole Hugging Face
synthesis chain fails with the fixed exhaustion error. -/
theorem textToSpeechWithHuggingFace_exhausted (env : Env) (text lang : String)
    (h : ∀ m, env.hfTtsResp m text = none) :
    (textToSpeechWithHuggingFace env text lang).1 =
      Except.error "All TTS models failed" := by
  simp [textToSpeechWithHuggingFace, h, ttsTryFallbacks_exhausted env text _ h]

/-- The transcript of the STT stage is the pipeline transcript,
independent of the socket flag. -/
theorem sttStage_fst (env : Env) (a : Audio) (sock : Bool) :
    (sttStage env a sock).1 = pipelineOriginalText env a := by
  unfold sttStage pipelineOriginalText
  cases h : (speechToTextWithHuggingFace env a).1 <;> simp [h]

/-- The detection stage succeeds whenever the declared language is not
the sentinel auto, or detection succeeds on the transcript. -/
theorem detectStage_ok_of_succeeds (env : Env) (sL o : String)
    (h : sL = "auto" → detectionSucceeds env o = true) :
    ∃ l, (detectStage env sL o).1 = Except.ok l := by
  by_cases hs : sL = "auto"
  · subst hs
    have hd := h rfl
    unfold detectionSucceeds at hd
    unfold detectStage
    by_cases hg : env.googleClient = true
    · rw [if_pos hg] at hd
      simp only [if_pos rfl, if_pos hg]
      cases hr : env.gDetectResp o with
      | ok l => exact ⟨l, by simp [hr]⟩
      | error m => rw [hr] at hd; simp [exceptOk] at hd
    · rw [if_neg hg] at hd
      simp only [if_pos rfl, if_neg hg]
      unfold detectLanguageWithHuggingFace
      cases hr : env.hfDetectResp o with
      | ok l => exact ⟨l, by simp [hr]⟩
      | error m => rw [hr] at hd; simp [exceptOk] at hd
  · exact ⟨sL, by simp [detectStage, hs]⟩

/-- C2: for every audio payload of size 0 or any size strictly below the
1000-byte floor, the pipeline raises the invalid-job error immediately:
no provider call is made and no event is emitted. -/
theorem minSizeRejection_C2 (env : Env) (audioData : Audio)
    (sourceLang targetLang : String) (socket : Bool)
    (hlen : audioData.length < 1000) :
    processAudioPipeline env audioData sourceLang targetLang socket =
      (Except.error "Audio buffer too small - may be empty", [], []) := by
  simp [processAudioPipeline, hlen]

/-- Witness for C2 at the spec scenario: 500 bytes of silence. -/
theorem minSizeRejection_C2_witness :
    aud500.length < 1000 ∧
    processAudioPipeline envFail aud500 "auto" "es" true =
      (Except.error "Audio buffer too small - may be empty", [], []) :=
  ⟨by decide, minSizeRejection_C2 envFail aud500 "auto" "es" true (by decide)⟩

/-- C8: an audio-stream event without an audio field makes the server
emit exactly one error event with the fixed message, enter the pipeline
never, and perform no provider call. -/
theorem missingAudio_C8 (env : Env) (sourceLang targetLang : Option String) :
    handleAudioStream env none sourceLang targetLang =
      ([Event.error "No audio data received."], []) := rfl

/-- C9 counterexample: when the gtts save callback reports an error
after having created the file, `textToSpeechWithGoogle` rejects without
unlinking and the temporary file is left behind, contradicting the
claimed success/failure-independent deletion. -/
theorem gttsTmpFile_C9_counterexample :
    (textToSpeechWithGoogle envC9 "hola" "es").result =
      Except.error "gtts unavailable" ∧
    (textToSpeechWithGoogle envC9 "hola" "es").tmpFileLeft = true :=
  ⟨rfl, rfl⟩

/-- C9 amended: the temporary file is read and then deleted on the
success path only; when the synthesis callback reports an error the
promise is rejected without any deletion, so whether a file is left
behind is exactly whether the failed save created one. -/
theorem gttsTmpFile_C9 (env : Env) (text lang : String) :
    (∀ a, env.gttsSave text lang = Except.ok a →
      textToSpeechWithGoogle env text lang =
        { result := Except.ok a, calls := [Call.gtts text lang],
          tmpFileLeft := false }) ∧
    (∀ e, env.gttsSave text lang = Except.error e →
      textToSpeechWithGoogle env text lang =
        { result := Except.error e, calls := [Call.gtts text lang],
          tmpFileLeft := env.gttsFileLeftOnError text lang }) := by
  constructor
  · intro a h
    simp [textToSpeechWithGoogle, h]
  · intro e h
    simp [textToSpeechWithGoogle, h]

/-- Witness for C9 amended, on a succeeding and on a failing save. -/
theorem gttsTmpFile_C9_witness :
    textToSpeechWithGoogle envOk "hola" "es" =
      { result := Except.ok goodAudio, calls := [Call.gtts "hola" "es"],
        tmpFileLeft := false } ∧
    textToSpeechWithGoogle envC9 "hola" "es" =
      { result := Except.error "gtts unavailable",
        calls := [Call.gtts "hola" "es"],
        tmpFileLeft := envC9.gttsFileLeftOnError "hola" "es" } :=
  ⟨(gttsTmpFile_C9 envOk "hola" "es").1 goodAudio rfl,
   (gttsTmpFile_C9 envC9 "hola" "es").2 "gtts unavailable" rfl⟩

/-- C10: for every target language outside the nine-key model table
(English included), the Hugging Face synthesis stage still runs, using
the Spanish model facebook/mms-tts-spa as its language-specific first
attempt before the generic fallback chain. -/
theorem ttsDefaultModel_C10 (env : Env) (text targetLang : String)
    (h : targetLang ∉ ["es", "fr", "de", "ja", "hi", "it", "ru", "zh", "ur"]) :
    ttsPrimaryModel targetLang = "facebook/mms-tts-spa" ∧
    ∃ rest, (textToSpeechWithHuggingFace env text targetLang).2 =
      Call.hfTts "facebook/mms-tts-spa" text :: rest := by
  have h9 : targetLang ≠ "es" ∧ targetLang ≠ "fr" ∧ targetLang ≠ "de" ∧
      targetLang ≠ "ja" ∧ targetLang ≠ "hi" ∧ targetLang ≠ "it" ∧
      targetLang ≠ "ru" ∧ targetLang ≠ "zh" ∧ targetLang ≠ "ur" := by
    simp only [List.mem_cons, List.not_mem_nil, or_false] at h
    push_neg at h
    exact h
  obtain ⟨h1, h2, h3, h4, h5, h6, h7, h8, h9'⟩ := h9
  have hm : ttsPrimaryModel targetLang = "facebook/mms-tts-spa" := by
    simp [ttsPrimaryModel, ttsModelMap, h1, h2, h3, h4, h5, h6, h7, h8, h9']
  refine ⟨hm, ?_⟩
  unfold textToSpeechWithHuggingFace
  rw [hm]
  cases hr : env.hfTtsResp "facebook/mms-tts-spa" text with
  | none =>
    simp only [hr]
    exact ⟨_, rfl⟩
  | some data =>
    by_cases hd : data.length < 100
    · simp only [hr, if_pos hd]
      exact ⟨_, rfl⟩
    · simp only [hr, if_neg hd]
      exact ⟨_, rfl⟩

/-- Witness for C10 at the English target. -/
theorem ttsDefaultModel_C10_witness :
    ("en" ∉ ["es", "fr", "de", "ja", "hi", "it", "ru", "zh", "ur"]) ∧
    (ttsPrimaryModel "en" = "facebook/mms-tts-spa" ∧
      ∃ rest, (textToSpeechWithHuggingFace envFail "hi there" "en").2 =
        Call.hfTts "facebook/mms-tts-spa" "hi there" :: rest) :=
  ⟨by decide, ttsDefaultModel_C10 envFail "hi there" "en" (by decide)⟩

/-- C7: the synthesis stage always calls the free Google gTTS provider
first; when it succeeds no Hugging Face model is invoked; when it fails
and the whole quota-limited chain is exhausted, the chain was tried in
its fixed order (language-specific model, then the generic multilingual
and English-only fallbacks) and the substituted placeholder payload is
the fixed non-playable sentinel mock-audio-data. -/
theorem synthesisOrder_C7 (env : Env) (text lang : String) :
    (∃ rest, (ttsStage env text lang).2 = Call.gtts text lang :: rest) ∧
    (∀ a, env.gttsSave text lang = Except.ok a →
      ttsStage env text lang = (a, [Call.gtts text lang])) ∧
    (∀ e, env.gttsSave text lang = Except.error e →
      (∀ m, env.hfTtsResp m text = none) →
      ttsStage env text lang =
        (mockAudioData,
         [Call.gtts text lang,
          Call.hfTts (ttsPrimaryModel lang) text,
          Call.hfTts "suno/bark" text,
          Call.hfTts "espnet/kan-bayashi_ljspeech_vits" text,
          Call.hfTts "microsoft/speecht5_tts" text])) := by
  refine ⟨?_, ?_, ?_⟩
  · unfold ttsStage textToSpeechWithGoogle
    cases hg : env.gttsSave text lang with
    | ok a => exact ⟨[], rfl⟩
    | error e =>
      simp only [hg]
      cases hh : (textToSpeechWithHuggingFace env text lang).1 <;> simp [hh]
  · intro a h
    simp [ttsStage, textToSpeechWithGoogle, h]
  · intro e h hall
    simp [ttsStage, textToSpeechWithGoogle, h, textToSpeechWithHuggingFace, hall,
          ttsTryFallbacks, ttsFallbackModels, mockTextToSpeech]

/-- Witness for C7: a succeeding gtts emits only the gtts call; a fully
failing environment walks the whole fixed chain and substitutes the
sentinel payload. -/
theorem synthesisOrder_C7_witness :
    ttsStage envOk "hola" "fr" = (goodAudio, [Call.gtts "hola" "fr"]) ∧
    ttsStage envFail "hola" "fr" =
      (mockAudioData,
       [Call.gtts "hola" "fr",
        Call.hfTts (ttsPrimaryModel "fr") "hola",
        Call.hfTts "suno/bark" "hola",
        Call.hfTts "espnet/kan-bayashi_ljspeech_vits" "hola",
        Call.hfTts "microsoft/speecht5_tts" "hola"]) :=
  ⟨(synthesisOrder_C7 envOk "hola" "fr").2.1 goodAudio rfl,
   (synthesisOrder_C7 envFail "hola" "fr").2.2 "gtts unavailable" rfl (fun _ => rfl)⟩

/-- C4: in a fallback chain of providers A, B, C where A fails and B
succeeds, the chain result is exactly the output of B and C is never
invoked (the call trace stops at B), both for the TTS fallback loop and
for the STT model loop; and only when every candidate fails does the
chain raise its all-providers-failed error. -/
theorem fallbackFirstSuccess_C4 (env env2 : Env) (audioBuffer : Audio)
    (text mA mB mC tB : String) (outB : Audio) (ms : List String)
    (hA : env.hfTtsResp mA text = none)
    (hB : env.hfTtsResp mB text = some outB)
    (hBlen : 100 < outB.length)
    (hsA : env.sttResp mA audioBuffer = none)
    (hsB : env.sttResp mB audioBuffer = some tB) :
    ttsTryFallbacks env text [mA, mB, mC] =
      (Except.ok outB, [Call.hfTts mA text, Call.hfTts mB text]) ∧
    sttTryModels env audioBuffer [mA, mB, mC] =
      (Except.ok tB, [Call.stt mA audioBuffer, Call.stt mB audioBuffer]) ∧
    ((∀ m, env2.hfTtsResp m text = none) →
      (ttsTryFallbacks env2 text ms).1 = Except.error "All TTS models failed") ∧
    ((∀ m, env2.sttResp m audioBuffer = none) →
      (sttTryModels env2 audioBuffer ms).1 = Except.error "All STT models failed.") := by
  refine ⟨?_, ?_, ?_, ?_⟩
  · simp [ttsTryFallbacks, hA, hB, hBlen]
  · simp [sttTryModels, hsA, hsB]
  · intro h
    exact ttsTryFallbacks_exhausted env2 text ms h
  · intro h
    exact sttTryModels_exhausted env2 audioBuffer ms h

/-- Witness for C4 with concrete providers A, B, C. -/
theorem fallbackFirstSuccess_C4_witness :
    ttsTryFallbacks envC4 "hola" ["providerA", "providerB", "providerC"] =
      (Except.ok (List.replicate 101 3),
       [Call.hfTts "providerA" "hola", Call.hfTts "providerB" "hola"]) ∧
    sttTryModels envC4 aud1000 ["providerA", "providerB", "providerC"] =
      (Except.ok "transcript from B",
       [Call.stt "providerA" aud1000, Call.stt "providerB" aud1000]) ∧
    ((∀ m, envFail.hfTtsResp m "hola" = none) →
      (ttsTryFallbacks envFail "hola" ["x", "y"]).1 =
        Except.error "All TTS models failed") ∧
    ((∀ m, envFail.sttResp m aud1000 = none) →
      (sttTryModels envFail aud1000 ["x", "y"]).1 =
        Except.error "All STT models failed.") :=
  fallbackFirstSuccess_C4 envC4 envFail aud1000 "hola" "providerA" "providerB"
    "providerC" "transcript from B" (List.replicate 101 3) ["x", "y"]
    rfl rfl (by decide) rfl rfl

/-- C5 counterexample: with the direct fr-ko model failing and the fr-en
pivot leg throwing a timeout, the router propagates the leg error
itself, not the dedicated exhaustion error that embodies
TranslationExhaustedError, refuting the claim that either leg failing
raises TranslationExhaustedError. -/
theorem pivot_C5_counterexample :
    (translateWithHuggingFace envC5bad "bonjour" "fr" "ko").1 =
      Except.error "leg timeout" ∧
    (translateWithHuggingFace envC5bad "bonjour" "fr" "ko").1 ≠
      Except.error "All translation strategies failed." :=
  ⟨rfl, by decide⟩

/-- C5 amended: for source fr and target ko with the direct fr-ko model
failing, the router attempts the fr-en leg and then the en-ko leg and
returns the composed result; but when a pivot leg fails by throwing, the
router propagates that leg error unchanged rather than raising
TranslationExhaustedError. -/
theorem pivot_C5 (env env2 : Env) (text text2 t1 t2 e0 e0x eA : String)
    (hdirect : env.hfTransResp (opusModel "fr" "ko") text = Except.error e0)
    (hlegA : env.hfTransResp (opusModel "fr" "en") text = Except.ok t1)
    (ht1 : t1 ≠ "")
    (hlegB : env.hfTransResp (opusModel "en" "ko") t1 = Except.ok t2)
    (ht2 : t2 ≠ "")
    (hdirect2 : env2.hfTransResp (opusModel "fr" "ko") text2 = Except.error e0x)
    (hlegA2 : env2.hfTransResp (opusModel "fr" "en") text2 = Except.error eA) :
    translateWithHuggingFace env text "fr" "ko" =
      (Except.ok t2,
       [Call.hfTrans (opusModel "fr" "ko") text,
        Call.hfTrans (opusModel "fr" "en") text,
        Call.hfTrans (opusModel "en" "ko") t1]) ∧
    (translateWithHuggingFace env2 text2 "fr" "ko").1 = Except.error eA := by
  constructor
  · simp [translateWithHuggingFace, doTranslation, hdirect, hlegA, ht1, hlegB, ht2]
  · simp [translateWithHuggingFace, doTranslation, hdirect2, hlegA2]

/-- Witness for C5 amended, on a succeeding pivot and on a throwing
first leg. -/
theorem pivot_C5_witness :
    translateWithHuggingFace envC5ok "bonjour" "fr" "ko" =
      (Except.ok "annyeong",
       [Call.hfTrans (opusModel "fr" "ko") "bonjour",
        Call.hfTrans (opusModel "fr" "en") "bonjour",
        Call.hfTrans (opusModel "en" "ko") "good morning"]) ∧
    (translateWithHuggingFace envC5bad "bonjour" "fr" "ko").1 =
      Except.error "leg timeout" :=
  pivot_C5 envC5ok envC5bad "bonjour" "bonjour" "good morning" "annyeong"
    "direct model failed" "direct model failed" "leg timeout"
    (by decide) (by decide) (by decide) (by decide) (by decide)
    (by decide) (by decide)

/-- When Google Translate and every Hugging Face translation model
fail, the translation router fails (with some error: the dedicated
exhaustion error or a propagated pivot-leg error). -/
theorem translateWithHuggingFace_exhausted (env : Env) (text s t : String)
    (hg : ∀ x y z, ∃ e, env.gTranslateResp x y z = Except.error e)
    (hh : ∀ m i, ∃ e, env.hfTransResp m i = Except.error e) :
    ∃ e, (translateWithHuggingFace env text s t).1 = Except.error e := by
  obtain ⟨e1, he1⟩ := hh (opusModel s t) text
  unfold translateWithHuggingFace doTranslation
  by_cases hja : (t = "ja" ∨ s = "ja") ∧ env.googleClient = true
  · obtain ⟨eg, heg⟩ := hg text s t
    simp only [if_pos hja, heg, he1]
    by_cases hp : s ≠ "en" ∧ t ≠ "en"
    · obtain ⟨eA, heA⟩ := hh (opusModel s "en") text
      simp only [if_pos hp, heA]
      exact ⟨eA, rfl⟩
    · simp only [if_neg hp]
      exact ⟨_, rfl⟩
  · simp only [if_neg hja, he1]
    by_cases hp : s ≠ "en" ∧ t ≠ "en"
    · obtain ⟨eA, heA⟩ := hh (opusModel s "en") text
      simp only [if_pos hp, heA]
      exact ⟨eA, rfl⟩
    · simp only [if_neg hp]
      exact ⟨_, rfl⟩

/-- C1: for every job with audio at or above the 1000-byte floor whose
source language is not the sentinel auto, or is auto with detection
succeeding on the resulting transcript, the pipeline returns a
PipelineResult (all fields populated); and when every provider fails,
each stage substitutes its deterministic mock: mock transcript, mock
translation marker, mock audio payload. -/
theorem totalFallback_C1 (env : Env) (audioData : Audio)
    (sourceLang targetLang : String) (socket : Bool)
    (hlen : 1000 ≤ audioData.length)
    (hdet : sourceLang = "auto" →
      detectionSucceeds env (pipelineOriginalText env audioData) = true) :
    (∃ res, (processAudioPipeline env audioData sourceLang targetLang socket).1 =
      Except.ok res) ∧
    (allProvidersFail env → sourceLang ≠ "auto" → sourceLang ≠ targetLang →
      (processAudioPipeline env audioData sourceLang targetLang socket).1 =
        Except.ok { audio := mockAudioData,
                    text := mockTranslation (mockSpeechToText audioData)
                              sourceLang targetLang,
                    originalText := mockSpeechToText audioData }) := by
  have hnl : ¬ audioData.length < 1000 := not_lt.mpr hlen
  constructor
  · unfold processAudioPipeline
    simp only [if_neg hnl]
    obtain ⟨l, hl⟩ :=
      detectStage_ok_of_succeeds env sourceLang (pipelineOriginalText env audioData) hdet
    rw [← sttStage_fst env audioData socket] at hl
    simp only [hl]
    exact ⟨_, rfl⟩
  · intro hall hs hst
    obtain ⟨h1, h2, h3, h4, h5⟩ := hall
    have hstt : (speechToTextWithHuggingFace env audioData).1 =
        Except.error "All STT models failed." :=
      sttTryModels_exhausted env audioData sttModels (fun m => h1 m audioData)
    have hsS1 : (sttStage env audioData socket).1 = mockSpeechToText audioData := by
      unfold sttStage
      simp only [hstt]
    have hdS : (detectStage env sourceLang (mockSpeechToText audioData)).1 =
        Except.ok sourceLang := by
      simp [detectStage, hs]
    obtain ⟨et, het⟩ :=
      translateWithHuggingFace_exhausted env (mockSpeechToText audioData)
        sourceLang targetLang h2 h3
    have htrS : translateStage env (mockSpeechToText audioData) sourceLang targetLang =
        (mockTranslation (mockSpeechToText audioData) sourceLang targetLang,
         (translateWithHuggingFace env (mockSpeechToText audioData)
            sourceLang targetLang).2) := by
      unfold translateStage
      rw [if_neg hst]
      simp only [het]
    obtain ⟨eg, heg⟩ :=
      h5 (mockTranslation (mockSpeechToText audioData) sourceLang targetLang) targetLang
    have httsS : (ttsStage env
        (mockTranslation (mockSpeechToText audioData) sourceLang targetLang)
        targetLang).1 = mockAudioData := by
      unfold ttsStage textToSpeechWithGoogle
      simp only [heg]
      simp only [textToSpeechWithHuggingFace_exhausted env _ targetLang
        (fun m => h4 m _)]
      rfl
    unfold processAudioPipeline
    simp only [if_neg hnl, hdS, htrS, hsS1, httsS]

/-- Witness for C1: at the size floor, declared source en, target es,
with every provider failing, the pipeline still returns the composed
mock result. -/
theorem totalFallback_C1_witness :
    1000 ≤ aud1000.length ∧
    (∃ res, (processAudioPipeline envFail aud1000 "en" "es" false).1 =
      Except.ok res) ∧
    (processAudioPipeline envFail aud1000 "en" "es" false).1 =
      Except.ok { audio := mockAudioData,
                  text := mockTranslation (mockSpeechToText aud1000) "en" "es",
                  originalText := mockSpeechToText aud1000 } := by
  have h := totalFallback_C1 envFail aud1000 "en" "es" false (by decide) (by decide)
  refine ⟨by decide, h.1, ?_⟩
  exact h.2
    ⟨fun _ _ => rfl, fun _ _ _ => ⟨_, rfl⟩, fun _ _ => ⟨_, rfl⟩,
     fun _ _ => rfl, fun _ _ => ⟨_, rfl⟩⟩
    (by decide) (by decide)

/-- Calls made by `textToSpeechWithGoogle` are exactly one gtts call. -/
theorem textToSpeechWithGoogle_calls (env : Env) (text lang : String) :
    (textToSpeechWithGoogle env text lang).calls = [Call.gtts text lang] := by
  unfold textToSpeechWithGoogle
  cases env.gttsSave text lang <;> rfl

/-- No call made by the STT model loop is a translation call. -/
theorem sttTryModels_calls (env : Env) (a : Audio) (ms : List String) :
    ∀ c ∈ (sttTryModels env a ms).2, isTranslationCall c = false := by
  induction ms with
  | nil => intro c hc; simp [sttTryModels] at hc
  | cons m rest ih =>
    intro c hc
    unfold sttTryModels at hc
    cases hr : env.sttResp m a with
    | some t =>
      rw [hr] at hc
      simp at hc
      subst hc
      rfl
    | none =>
      rw [hr] at hc
      simp at hc
      rcases hc with hc | hc
      · subst hc; rfl
      · exact ih c hc

/-- No call made by the STT stage is a translation call. -/
theorem sttStage_calls (env : Env) (a : Audio) (sock : Bool) :
    ∀ c ∈ (sttStage env a sock).2.1, isTranslationCall c = false := by
  intro c hc
  unfold sttStage at hc
  cases hr : (speechToTextWithHuggingFace env a).1 <;>
    simp only [hr] at hc <;>
    exact sttTryModels_calls env a sttModels c hc

/-- No call made by the detection stage is a translation call. -/
theorem detectStage_calls (env : Env) (sL o : String) :
    ∀ c ∈ (detectStage env sL o).2, isTranslationCall c = false := by
  intro c hc
  unfold detectStage at hc
  by_cases hs : sL = "auto"
  · rw [if_pos hs] at hc
    by_cases hg : env.googleClient = true
    · rw [if_pos hg] at hc
      cases hr : env.gDetectResp o <;> rw [hr] at hc <;> simp at hc <;>
        subst hc <;> rfl
    · rw [if_neg hg] at hc
      unfold detectLanguageWithHuggingFace at hc
      cases hr : env.hfDetectResp o <;> rw [hr] at hc <;> simp at hc <;>
        subst hc <;> rfl
  · rw [if_neg hs] at hc
    simp at hc

/-- No call made by the TTS fallback loop is a translation call. -/
theorem ttsTryFallbacks_calls (env : Env) (text : String) (ms : List String) :
    ∀ c ∈ (ttsTryFallbacks env text ms).2, isTranslationCall c = false := by
  induction ms with
  | nil => intro c hc; simp [ttsTryFallbacks] at hc
  | cons m rest ih =>
    intro c hc
    unfold ttsTryFallbacks at hc
    cases hr : env.hfTtsResp m text with
    | some data =>
      rw [hr] at hc
      by_cases hd : 100 < data.length
      · simp [hd] at hc
        subst hc
        rfl
      · simp [hd] at hc
        rcases hc with hc | hc
        · subst hc; rfl
        · exact ih c hc
    | none =>
      rw [hr] at hc
      simp at hc
      rcases hc with hc | hc
      · subst hc; rfl
      · exact ih c hc

/-- No call made by the Hugging Face synthesis chain is a translation
call. -/
theorem textToSpeechWithHuggingFace_calls (env : Env) (text lang : String) :
    ∀ c ∈ (textToSpeechWithHuggingFace env text lang).2,
      isTranslationCall c = false := by
  intro c hc
  unfold textToSpeechWithHuggingFace at hc
  cases hr : env.hfTtsResp (ttsPrimaryModel lang) text with
  | some data =>
    simp only [hr] at hc
    by_cases hd : data.length < 100
    · simp [hd] at hc
      rcases hc with hc | hc
      · subst hc; rfl
      · exact ttsTryFallbacks_calls env text ttsFallbackModels c hc
    · simp [hd] at hc
      subst hc
      rfl
  | none =>
    simp only [hr] at hc
    simp at hc
    rcases hc with hc | hc
    · subst hc; rfl
    · exact ttsTryFallbacks_calls env text ttsFallbackModels c hc

/-- No call made by the synthesis stage is a translation call. -/
theorem ttsStage_calls (env : Env) (text lang : String) :
    ∀ c ∈ (ttsStage env text lang).2, isTranslationCall c = false := by
  intro c hc
  unfold ttsStage at hc
  cases hres : (textToSpeechWithGoogle env text lang).result with
  | ok a =>
    simp only [hres] at hc
    rw [textToSpeechWithGoogle_calls] at hc
    simp at hc
    subst hc
    rfl
  | error e =>
    simp only [hres] at hc
    cases hh : (textToSpeechWithHuggingFace env text lang).1 <;>
      simp only [hh] at hc <;>
      rw [textToSpeechWithGoogle_calls] at hc <;>
      simp at hc <;>
      rcases hc with hc | hc
    · subst hc; rfl
    · exact textToSpeechWithHuggingFace_calls env text lang c hc
    · subst hc; rfl
    · exact textToSpeechWithHuggingFace_calls env text lang c hc

/-- C3: for every run whose detected (or declared) source language
equals the target language and which returns a result, the translated
text equals the transcript exactly, and the call trace of the run
contains no translation-provider call. -/
theorem sameLanguage_C3 (env : Env) (audioData : Audio)
    (sourceLang targetLang : String) (socket : Bool) (res : PipelineResult)
    (hres : (processAudioPipeline env audioData sourceLang targetLang socket).1 =
      Except.ok res)
    (hdet : pipelineDetectedLang env sourceLang (pipelineOriginalText env audioData) =
      some targetLang) :
    res.text = res.originalText ∧
    ∀ c ∈ (processAudioPipeline env audioData sourceLang targetLang socket).2.1,
      isTranslationCall c = false := by
  by_cases hnl : audioData.length < 1000
  · simp [processAudioPipeline, hnl] at hres
  · have hdl : (detectStage env sourceLang (sttStage env audioData socket).1).1 =
        Except.ok targetLang := by
      unfold pipelineDetectedLang at hdet
      rw [sttStage_fst env audioData socket]
      cases hd : (detectStage env sourceLang (pipelineOriginalText env audioData)).1 with
      | ok l =>
        rw [hd] at hdet
        simp at hdet
        subst hdet
        rfl
      | error m =>
        rw [hd] at hdet
        simp at hdet
    have htr : translateStage env (sttStage env audioData socket).1 targetLang targetLang =
        ((sttStage env audioData socket).1, []) := by
      simp [translateStage]
    constructor
    · unfold processAudioPipeline at hres
      simp only [if_neg hnl, hdl, htr] at hres
      injection hres with hres
      rw [← hres]
    · unfold processAudioPipeline
      simp only [if_neg hnl, hdl, htr]
      intro c hc
      simp only [List.append_nil, List.mem_append] at hc
      rcases hc with (hc | hc) | hc
      · exact sttStage_calls env audioData socket c hc
      · exact detectStage_calls env sourceLang _ c hc
      · exact ttsStage_calls env _ targetLang c hc

/-- Witness for C3: declared source es equals target es; the run
succeeds with translated text equal to the transcript and makes no
translation call. -/
theorem sameLanguage_C3_witness :
    ({ audio := goodAudio, text := "hello there",
       originalText := "hello there" } : PipelineResult).text =
      ({ audio := goodAudio, text := "hello there",
         originalText := "hello there" } : PipelineResult).originalText ∧
    ∀ c ∈ (processAudioPipeline envOk aud1000 "es" "es" true).2.1,
      isTranslationCall c = false :=
  sameLanguage_C3 envOk aud1000 "es" "es" true
    { audio := goodAudio, text := "hello there", originalText := "hello there" }
    rfl rfl

/-- The STT stage emits either nothing or exactly one
transcription-update event. -/
theorem sttStage_events (env : Env) (a : Audio) (sock : Bool) :
    (sttStage env a sock).2.2 = [] ∨
    ∃ o, (sttStage env a sock).2.2 = [Event.transcriptionUpdate o] := by
  unfold sttStage
  cases hr : (speechToTextWithHuggingFace env a).1 with
  | error e =>
    exact Or.inl (by simp [hr])
  | ok t =>
    cases sock with
    | false => exact Or.inl (by simp [hr])
    | true => exact Or.inr ⟨t, by simp [hr]⟩

/-- The pipeline emits either no progress event or exactly one
transcription-update event. -/
theorem pipeline_events_shape (env : Env) (a : Audio) (sL tL : String) (sock : Bool) :
    (processAudioPipeline env a sL tL sock).2.2 = [] ∨
    ∃ o, (processAudioPipeline env a sL tL sock).2.2 =
      [Event.transcriptionUpdate o] := by
  unfold processAudioPipeline
  by_cases hnl : a.length < 1000
  · simp [hnl]
  · simp only [if_neg hnl]
    cases hd : (detectStage env sL (sttStage env a sock).1).1 with
    | error m =>
      simp only [hd]
      exact sttStage_events env a sock
    | ok l =>
      simp only [hd]
      exact sttStage_events env a sock

/-- C6 counterexample: with every STT model failing (mock transcript
substituted) and everything else degrading to mocks, the job still ends
with a translated-audio event although no transcription-update event was
ever emitted, refuting the claim that one is always emitted before it. -/
theorem progressOrder_C6_counterexample :
    (∃ a x, Event.translatedAudio a x ∈
      (handleAudioStream envFail (some aud1000) (some "en") (some "es")).1) ∧
    ∀ o, Event.transcriptionUpdate o ∉
      (handleAudioStream envFail (some aud1000) (some "en") (some "es")).1 := by
  have hL : (handleAudioStream envFail (some aud1000) (some "en") (some "es")).1 =
      [Event.translatedAudio mockAudioData
        (mockTranslation (mockSpeechToText aud1000) "en" "es")] := rfl
  rw [hL]
  constructor
  · exact ⟨_, _, List.mem_singleton.mpr rfl⟩
  · intro o ho
    simp at ho

/-- C6 amended: whenever both a transcription-update event and a
translated-audio event occur in the event stream of one audio-stream
job, the transcription-update comes strictly first (a job that degraded
STT to the mock transcript emits no transcription-update at all, yet
still ends with translated-audio). -/
theorem progressOrder_C6 (env : Env) (audioData : Audio)
    (sourceLang targetLang : Option String) (i j : Nat) (o x : String) (a : Audio)
    (hi : ((handleAudioStream env (some audioData) sourceLang targetLang).1)[i]? =
      some (Event.transcriptionUpdate o))
    (hj : ((handleAudioStream env (some audioData) sourceLang targetLang).1)[j]? =
      some (Event.translatedAudio a x)) :
    i < j := by
  unfold handleAudioStream at hi hj
  rcases pipeline_events_shape env audioData (sourceLang.getD "auto")
      (targetLang.getD "es") true with hev | ⟨o', hev⟩ <;>
    cases hres : (processAudioPipeline env audioData (sourceLang.getD "auto")
        (targetLang.getD "es") true).1 <;>
    simp only [hres, hev] at hi hj
  · -- no progress event, pipeline error: only an error event exists
    cases i <;> simp at hi
  · -- no progress event, pipeline ok: only translated-audio at index 0
    cases i <;> simp at hi
  · -- one progress event, pipeline error: no translated-audio exists
    cases j with
    | zero => simp at hj
    | succ j' => cases j' <;> simp at hj
  · -- one progress event, pipeline ok: update at 0, result at 1
    cases i with
    | zero =>
      cases j with
      | zero => simp at hj
      | succ j' =>
        cases j' with
        | zero => exact Nat.zero_lt_one
        | succ j'' => simp at hj
    | succ i' => cases i' <;> simp at hi

/-- Witness for C6 amended: a run in which STT succeeds emits the
transcription-update at index 0 and the translated-audio at index 1. -/
theorem progressOrder_C6_witness :
    ((handleAudioStream envOk (some aud1000) (some "es") (some "es")).1)[0]? =
      some (Event.transcriptionUpdate "hello there") ∧
    ((handleAudioStream envOk (some aud1000) (some "es") (some "es")).1)[1]? =
      some (Event.translatedAudio goodAudio "hello there") ∧
    (0 : Nat) < 1 :=
  ⟨rfl, rfl,
   progressOrder_C6 envOk aud1000 (some "es") (some "es") 0 1
     "hello there" "hello there" goodAudio rfl rfl⟩

end VoiceTranslator
